import Mathlib

/-!
Verification of the AI-CRM lead-scoring engine against its specification.

The lead-scoring engine ranks customer records by a composite score in
[0,100].  Its company-size sub-component prefers a remote (OpenAI-backed)
classification and always falls back to a deterministic keyword heuristic.
The budget field is coerced by the web layer (app.py lines 122-127, quoted
verbatim in the repository's test documentation) before scoring.

Numeric values are modelled with ℚ (Python floats here only ever hold
decimal literals and small arithmetic on them).  Python values that can
reach the budget field are modelled by `PyVal`; absence of a dictionary
key is modelled by `Option`.
-/

/-- Company-size categories of the spec's data model (§3 CategoryEstimate). -/
inductive SizeCategory where
  | LargeEnterprise
  | MediumBusiness
  | SmallBusiness
  | Generic
  | Missing
deriving DecidableEq

/-- Provenance of a category estimate: remote classifier or local heuristic. -/
inductive EstSource where
  | Remote
  | Heuristic
deriving DecidableEq

/-- Transient result of the Category Estimator (spec §3). -/
structure CategoryEstimate where
  category : SizeCategory
  source : EstSource
  score : ℚ
deriving DecidableEq

/-- Checks whether the first list is an initial segment of the second. -/
def isPref : List Char → List Char → Bool
  | [], _ => true
  | _ :: _, [] => false
  | a :: ps, b :: ls => a == b && isPref ps ls

/-- Substring containment on character lists, as Python's `in` on strings. -/
def hasSub (sub : List Char) : List Char → Bool
  | [] => sub.isEmpty
  | c :: t => isPref sub (c :: t) || hasSub sub t

/-- Case-insensitive containment of keyword `kw` (given lowercase) in `s`,
as Python's `kw in s.lower()`. -/
def containsCI (s : String) (kw : String) : Bool :=
  hasSub kw.data (s.data.map Char.toLower)

/-- Whether `s` contains (case-insensitively) any keyword of the list. -/
def containsAny (s : String) (kws : List String) : Bool :=
  kws.any (fun k => containsCI s k)

/-- Keywords indicating a large enterprise (score 90). -/
def enterpriseKeywords : List String :=
  ["enterprise", "global", "international", "corporation"]

/-- Keywords indicating a registered medium business (score 70). -/
def mediumKeywords : List String :=
  ["inc", "llc", "ltd", "company"]

/-- Keywords indicating a startup / small business (score 50). -/
def smallKeywords : List String :=
  ["startup", "ventures"]

/-- Modelled from the spec: the heuristic branch of
`_calculate_company_size_score` in `modules/lead_scoring.py` is not under
src/; its keyword lists, precedence and scores are taken from spec §4.2 and
the repository's TEST_README (ordered case-insensitive keyword containment,
first match wins, empty name → Missing/30). -/
def heuristicCategory (company : String) : SizeCategory × ℚ :=
  if company.data = [] then (SizeCategory.Missing, 30)
  else if containsAny company enterpriseKeywords then (SizeCategory.LargeEnterprise, 90)
  else if containsAny company mediumKeywords then (SizeCategory.MediumBusiness, 70)
  else if containsAny company smallKeywords then (SizeCategory.SmallBusiness, 50)
  else (SizeCategory.Generic, 40)

/-- The HeuristicEstimator strategy: always available, deterministic,
marks its result with source = Heuristic. -/
def heuristicEstimate (company : String) : CategoryEstimate :=
  ⟨(heuristicCategory company).1, EstSource.Heuristic, (heuristicCategory company).2⟩

/-- Modelled from the spec: the exact placeholder text of the unset
OPENAI_API_KEY default lives in backend config not under src/; only its
existence matters (TEST_README: "If not set or set to the default
placeholder, the system will use heuristic fallback only"). -/
def defaultPlaceholder : String := "your-openai-api-key-here"

/-- Credential gate: the remote path is attempted only when the key is
present, non-empty and different from the default placeholder. -/
def apiKeyValid : Option String → Bool
  | none => false
  | some k => !(k == "") && !(k == defaultPlaceholder)

/-- Modelled from the spec: response parsing of the remote classifier
(`lead_scoring.py`, not under src/).  The response text is matched by
substring against the four category labels "Large Enterprise",
"Medium Business", "Small Business", "Startup", mapped to scores
90 / 70 / 50 / 40 (QUICK_START implementation summary); a text matching
none of them yields no category. -/
def parseCategory (resp : String) : Option (SizeCategory × ℚ) :=
  if containsCI resp "large enterprise" then some (SizeCategory.LargeEnterprise, 90)
  else if containsCI resp "medium business" then some (SizeCategory.MediumBusiness, 70)
  else if containsCI resp "small business" then some (SizeCategory.SmallBusiness, 50)
  else if containsCI resp "startup" then some (SizeCategory.Generic, 40)
  else none

/-- The external world the estimator sees: the configured credential and
the outcome of the single remote call.  `response = none` models network
failure, timeout, or an exception raised during the call. -/
structure RemoteEnv where
  apiKey : Option String
  response : Option String
deriving DecidableEq

/-- Modelled from the spec: the Category Estimator's `estimate` entry point
(`_calculate_company_size_score`, not under src/).  If the credential is
valid it attempts the remote call; on any failure mode — invalid
credential, failed call, or a response matching no category label — it
delegates to the heuristic with the same company.  The website argument
only feeds the remote prompt and never influences the result. -/
def estimate (env : RemoteEnv) (company : String) (website : Option String) :
    CategoryEstimate :=
  match apiKeyValid env.apiKey, env.response with
  | true, some resp =>
      match parseCategory resp with
      | some cs => ⟨cs.1, EstSource.Remote, cs.2⟩
      | none => heuristicEstimate company
  | true, none => heuristicEstimate company
  | false, _ =>
      let _ := website
      heuristicEstimate company

/-- Python values that can reach the budget field. -/
inductive PyVal where
  | pyNone
  | pyInt (n : ℤ)
  | pyFloat (q : ℚ)
  | pyStr (s : String)
deriving DecidableEq

/-- Python truthiness for the values `PyVal` covers. -/
def truthy : PyVal → Bool
  | PyVal.pyNone => false
  | PyVal.pyInt n => !(n == 0)
  | PyVal.pyFloat q => !(q == 0)
  | PyVal.pyStr s => !(s == "")

/-- Digit characters only. -/
def isDigitList (l : List Char) : Bool := l.all Char.isDigit

/-- Value of a digit string, most significant first. -/
def digitsToNat (l : List Char) : Nat :=
  l.foldl (fun a c => a * 10 + (c.toNat - 48)) 0

/-- Splits a character list at the first dot, if any. -/
def breakAtDot : List Char → (List Char × Option (List Char))
  | [] => ([], none)
  | c :: t =>
      if c = '.' then ([], some t)
      else
        let r := breakAtDot t
        (c :: r.1, r.2)

/-- Strips whitespace from both ends, as Python's `str.strip`. -/
def trimChars (l : List Char) : List Char :=
  ((l.dropWhile Char.isWhitespace).reverse.dropWhile Char.isWhitespace).reverse

/-- Python's built-in `float(str)` on plain decimal notation: optional
surrounding whitespace, optional sign, digits with at most one dot and at
least one digit.  (Exponent and inf/nan forms never occur in this
repository's inputs and are not modelled.)  `none` models ValueError. -/
def pyParseFloat (s : String) : Option ℚ :=
  let l := trimChars s.data
  let sl : ℚ × List Char :=
    match l with
    | '-' :: t => (-1, t)
    | '+' :: t => (1, t)
    | _ => (1, l)
  match breakAtDot sl.2 with
  | (ip, none) =>
      if !ip.isEmpty && isDigitList ip then some (sl.1 * (digitsToNat ip : ℚ))
      else none
  | (ip, some fp) =>
      if (!ip.isEmpty || !fp.isEmpty) && isDigitList ip && isDigitList fp then
        some (sl.1 * ((digitsToNat ip : ℚ) + (digitsToNat fp : ℚ) / (10 : ℚ) ^ fp.length))
      else none

/-- Python's `float(x)` on a `PyVal`: numbers convert, strings parse,
`None` raises TypeError (`none` models a raised ValueError/TypeError). -/
def floatFn : PyVal → Option ℚ
  | PyVal.pyNone => none
  | PyVal.pyInt n => some (n : ℚ)
  | PyVal.pyFloat q => some q
  | PyVal.pyStr s => pyParseFloat s

/-- The budget coercion of app.py lines 122-127, quoted verbatim in the
repository's budget type-safety document:
`if 'budget' in data and data['budget']:` then
`data['budget'] = float(data['budget'])`, and on ValueError/TypeError
`data['budget'] = 0`.  The argument is the budget entry of the request
dictionary (`none` = key absent); the result is the stored entry. -/
def convertBudget : Option PyVal → Option PyVal
  | none => none
  | some v =>
      if truthy v then
        match floatFn v with
        | some q => some (PyVal.pyFloat q)
        | none => some (PyVal.pyInt 0)
      else some v

/-- Modelled from the spec: the budget factor scorer of
`_calculate_budget_score` (`lead_scoring.py`, not under src/), as the fixed
bucket table of spec §4.3 and the repository's budget test table, boundaries
inclusive on their lower end. -/
def budgetScore (b : ℚ) : ℚ :=
  if 150000 ≤ b then 100
  else if 50000 ≤ b then 85
  else if 25000 ≤ b then 70
  else if 10000 ≤ b then 55
  else if 5000 ≤ b then 40
  else if 1000 ≤ b then 25
  else 10

/-- Numeric budget value a factor scorer sees for a stored budget entry:
numbers are used as-is, anything else collapses to the lowest bucket's
input 0 (spec §4.3: default to the lowest bucket on missing input). -/
def budgetValue : Option PyVal → ℚ
  | some (PyVal.pyInt n) => (n : ℚ)
  | some (PyVal.pyFloat q) => q
  | _ => 0

/-- Modelled from the spec: the engagement factor scorer
(`lead_scoring.py`, not under src/).  Spec §4.3 fixes only the shape — a
fixed bucket table over the interaction count, lowest bucket on missing
input; the numeric thresholds below are representative. -/
def engagementScore : Option ℤ → ℚ
  | none => 10
  | some n =>
      if 20 ≤ n then 100
      else if 10 ≤ n then 80
      else if 5 ≤ n then 60
      else if 1 ≤ n then 40
      else 10

/-- Modelled from the spec: the fixed set of preferred industries
(`lead_scoring.py`, not under src/); membership is all that matters. -/
def preferredIndustries : List String := ["technology", "finance", "healthcare"]

/-- Modelled from the spec: the industry-fit factor scorer
(`lead_scoring.py`, not under src/).  Spec §4.3 fixes only the shape —
matches against a fixed set of preferred industries, lowest bucket on
missing input. -/
def industryScore : Option String → ℚ
  | none => 20
  | some s =>
      if preferredIndustries.any (fun p => p.data == s.data.map Char.toLower) then 90
      else 20

/-- Modelled from the spec: the lifecycle-status factor scorer
(`lead_scoring.py`, not under src/).  Spec §4.3 fixes only the shape — a
fixed stage → score table, lowest bucket on missing input. -/
def statusScore : Option String → ℚ
  | none => 10
  | some s =>
      if s == "negotiating" then 90
      else if s == "interested" then 70
      else if s == "contacted" then 40
      else 10

/-- The caller-owned input record (spec §3 CustomerProfile); every field
but the company may be absent, and the budget may hold any `PyVal`. -/
structure CustomerProfile where
  name : Option String
  company : String
  website : Option String
  budget : Option PyVal
  industry : Option String
  status : Option String
  interactionCount : Option ℤ
deriving DecidableEq

/-- Modelled from the spec: the aggregator's fixed weight vector
(`lead_scoring.py`, not under src/); spec §4.4 fixes only that the weights
are fixed and sum to 1.0. -/
def wBudget : ℚ := 3/10

/-- Company-size weight of the modelled weight vector. -/
def wCompany : ℚ := 2/10

/-- Engagement weight of the modelled weight vector. -/
def wEngagement : ℚ := 2/10

/-- Industry weight of the modelled weight vector. -/
def wIndustry : ℚ := 15/100

/-- Status weight of the modelled weight vector. -/
def wStatus : ℚ := 15/100

/-- Final defensive clamp of the aggregator (spec §4.4). -/
def clampScore (x : ℚ) : ℚ := max 0 (min 100 x)

/-- Modelled from the spec: the Lead Scoring Orchestrator's `calculate_score`
(`lead_scoring.py`, not under src/): normalize the budget (the app.py
coercion quoted in src), run the Category Estimator and the independent
factor scorers, combine by fixed weights and clamp to [0,100]. -/
def calculateScore (env : RemoteEnv) (p : CustomerProfile) : ℚ :=
  let storedBudget := convertBudget p.budget
  let sBudget := budgetScore (budgetValue storedBudget)
  let sCompany := (estimate env p.company p.website).score
  let sEngagement := engagementScore p.interactionCount
  let sIndustry := industryScore p.industry
  let sStatus := statusScore p.status
  clampScore (wBudget * sBudget + wCompany * sCompany +
    wEngagement * sEngagement + wIndustry * sIndustry + wStatus * sStatus)

/-- C2: For every company name, HeuristicEstimator applies case-insensitive
keyword containment checks in fixed precedence with first match winning:
an enterprise keyword yields LargeEnterprise/90 even when a lower-precedence
keyword is also present; otherwise a medium keyword yields MediumBusiness/70;
otherwise a startup keyword yields SmallBusiness/50; any other non-empty
name yields Generic/40; an empty or missing name yields Missing/30. -/
theorem heuristic_keyword_precedence (company : String) :
    (containsAny company enterpriseKeywords = true →
      heuristicEstimate company =
        ⟨SizeCategory.LargeEnterprise, EstSource.Heuristic, 90⟩) ∧
    (containsAny company enterpriseKeywords = false →
      containsAny company mediumKeywords = true →
      heuristicEstimate company =
        ⟨SizeCategory.MediumBusiness, EstSource.Heuristic, 70⟩) ∧
    (containsAny company enterpriseKeywords = false →
      containsAny company mediumKeywords = false →
      containsAny company smallKeywords = true →
      heuristicEstimate company =
        ⟨SizeCategory.SmallBusiness, EstSource.Heuristic, 50⟩) ∧
    (company ≠ "" →
      containsAny company enterpriseKeywords = false →
      containsAny company mediumKeywords = false →
      containsAny company smallKeywords = false →
      heuristicEstimate company =
        ⟨SizeCategory.Generic, EstSource.Heuristic, 40⟩) ∧
    (company = "" →
      heuristicEstimate company =
        ⟨SizeCategory.Missing, EstSource.Heuristic, 30⟩) := by
  have hdata : company.data = [] → company = "" := by
    intro h
    cases company with
    | mk l =>
        simp only [String.data] at h
        subst h
        rfl
  have hent : company.data = [] → containsAny company enterpriseKeywords = false := by
    intro h
    unfold containsAny containsCI
    rw [h]
    decide
  have hmed : company.data = [] → containsAny company mediumKeywords = false := by
    intro h
    unfold containsAny containsCI
    rw [h]
    decide
  have hsml : company.data = [] → containsAny company smallKeywords = false := by
    intro h
    unfold containsAny containsCI
    rw [h]
    decide
  refine ⟨?_, ?_, ?_, ?_, ?_⟩
  · intro h1
    have hd : ¬ company.data = [] := by
      intro hh
      rw [hent hh] at h1
      exact Bool.false_ne_true h1
    simp [heuristicEstimate, heuristicCategory, hd, h1]
  · intro h1 h2
    have hd : ¬ company.data = [] := by
      intro hh
      rw [hmed hh] at h2
      exact Bool.false_ne_true h2
    simp [heuristicEstimate, heuristicCategory, hd, h1, h2]
  · intro h1 h2 h3
    have hd : ¬ company.data = [] := by
      intro hh
      rw [hsml hh] at h3
      exact Bool.false_ne_true h3
    simp [heuristicEstimate, heuristicCategory, hd, h1, h2, h3]
  · intro h0 h1 h2 h3
    have hd : ¬ company.data = [] := fun hh => h0 (hdata hh)
    simp [heuristicEstimate, heuristicCategory, hd, h1, h2, h3]
  · intro h0
    subst h0
    decide

/-- Witness for C2 at a name holding both an enterprise and a medium
keyword: precedence resolves it to LargeEnterprise with score 90. -/
theorem heuristic_keyword_precedence_witness :
    containsAny "Global Enterprise Inc" enterpriseKeywords = true ∧
    heuristicEstimate "Global Enterprise Inc" =
      ⟨SizeCategory.LargeEnterprise, EstSource.Heuristic, 90⟩ :=
  ⟨by decide, (heuristic_keyword_precedence "Global Enterprise Inc").1 (by decide)⟩

/-- C5: For every budget b ≥ 0 the budget scorer returns exactly the fixed
bucket value: 100 at and above 150000, 85 on [50000,150000), 70 on
[25000,50000), 55 on [10000,25000), 40 on [5000,10000), 25 on [1000,5000),
and 10 below 1000, boundaries inclusive on their lower end. -/
theorem budgetScore_bucket_table (b : ℚ) (hb : 0 ≤ b) :
    (150000 ≤ b → budgetScore b = 100) ∧
    (50000 ≤ b ∧ b < 150000 → budgetScore b = 85) ∧
    (25000 ≤ b ∧ b < 50000 → budgetScore b = 70) ∧
    (10000 ≤ b ∧ b < 25000 → budgetScore b = 55) ∧
    (5000 ≤ b ∧ b < 10000 → budgetScore b = 40) ∧
    (1000 ≤ b ∧ b < 5000 → budgetScore b = 25) ∧
    (b < 1000 → budgetScore b = 10) := by
  have h0 : 0 ≤ b := hb
  unfold budgetScore
  refine ⟨?_, ?_, ?_, ?_, ?_, ?_, ?_⟩
  · intro h
    split_ifs <;> first | rfl | linarith
  · intro h
    obtain ⟨h1, h2⟩ := h
    split_ifs <;> first | rfl | linarith
  · intro h
    obtain ⟨h1, h2⟩ := h
    split_ifs <;> first | rfl | linarith
  · intro h
    obtain ⟨h1, h2⟩ := h
    split_ifs <;> first | rfl | linarith
  · intro h
    obtain ⟨h1, h2⟩ := h
    split_ifs <;> first | rfl | linarith
  · intro h
    obtain ⟨h1, h2⟩ := h
    split_ifs <;> first | rfl | linarith
  · intro h
    split_ifs <;> first | rfl | linarith

/-- Witness for C5 at the $50,000 boundary: score is exactly 85. -/
theorem budgetScore_bucket_table_witness :
    0 ≤ (50000 : ℚ) ∧ budgetScore 50000 = 85 :=
  ⟨by norm_num,
    (budgetScore_bucket_table 50000 (by norm_num)).2.1 ⟨by norm_num, by norm_num⟩⟩

/-- C1: For every (company, website) input and every mode of remote
failure — missing credential, network failure, timeout, an exception raised
during the call, or a response text that does not map onto a known category
label — estimate() returns the heuristic result: source = Heuristic and
category and score equal HeuristicEstimator's direct result for the same
company. -/
theorem estimate_fallback_on_failure (env : RemoteEnv) (company : String)
    (website : Option String)
    (h : apiKeyValid env.apiKey = false ∨ env.response = none ∨
      ∃ r, env.response = some r ∧ parseCategory r = none) :
    estimate env company website = heuristicEstimate company ∧
    (estimate env company website).source = EstSource.Heuristic ∧
    (estimate env company website).category = (heuristicEstimate company).category ∧
    (estimate env company website).score = (heuristicEstimate company).score := by
  have he : estimate env company website = heuristicEstimate company := by
    rcases h with h | h | ⟨r, hr, hp⟩
    · simp [estimate, h]
    · cases hk : apiKeyValid env.apiKey <;> simp [estimate, h, hk]
    · cases hk : apiKeyValid env.apiKey <;> simp [estimate, hr, hp, hk]
  rw [he]
  exact ⟨rfl, rfl, rfl, rfl⟩

/-- Witness for C1: a valid credential but a response that matches no
category label falls back to the heuristic result. -/
theorem estimate_fallback_on_failure_witness :
    estimate ⟨some "sk-live-key", some "I cannot classify this"⟩ "Acme Inc" none =
      heuristicEstimate "Acme Inc" ∧
    (estimate ⟨some "sk-live-key", some "I cannot classify this"⟩ "Acme Inc" none).source =
      EstSource.Heuristic ∧
    (estimate ⟨some "sk-live-key", some "I cannot classify this"⟩ "Acme Inc" none).category =
      (heuristicEstimate "Acme Inc").category ∧
    (estimate ⟨some "sk-live-key", some "I cannot classify this"⟩ "Acme Inc" none).score =
      (heuristicEstimate "Acme Inc").score :=
  estimate_fallback_on_failure ⟨some "sk-live-key", some "I cannot classify this"⟩
    "Acme Inc" none (Or.inr (Or.inr ⟨"I cannot classify this", rfl, by decide⟩))

/-- C6: When the remote call succeeds, the response text is mapped by
substring matching onto the four non-missing categories (LargeEnterprise,
MediumBusiness, SmallBusiness, Generic); a response matching no label is
assigned no category and triggers the heuristic fallback instead. -/
theorem remote_success_mapping (env : RemoteEnv) (company : String)
    (website : Option String) (resp : String)
    (hk : apiKeyValid env.apiKey = true) (hr : env.response = some resp) :
    (∀ cat sc, parseCategory resp = some (cat, sc) →
      estimate env company website = ⟨cat, EstSource.Remote, sc⟩ ∧
      (cat = SizeCategory.LargeEnterprise ∨ cat = SizeCategory.MediumBusiness ∨
        cat = SizeCategory.SmallBusiness ∨ cat = SizeCategory.Generic)) ∧
    (parseCategory resp = none →
      estimate env company website = heuristicEstimate company) := by
  constructor
  · intro cat sc hp
    constructor
    · simp [estimate, hk, hr, hp]
    · unfold parseCategory at hp
      split_ifs at hp <;> simp_all
  · intro hp
    simp [estimate, hk, hr, hp]

/-- Witness for C6: a successful remote call answering "Medium Business"
is mapped to MediumBusiness with sub-score 70, marked Remote. -/
theorem remote_success_mapping_witness :
    estimate ⟨some "sk-live-key", some "Medium Business"⟩ "Acme" none =
      ⟨SizeCategory.MediumBusiness, EstSource.Remote, 70⟩ ∧
    (SizeCategory.MediumBusiness = SizeCategory.LargeEnterprise ∨
      SizeCategory.MediumBusiness = SizeCategory.MediumBusiness ∨
      SizeCategory.MediumBusiness = SizeCategory.SmallBusiness ∨
      SizeCategory.MediumBusiness = SizeCategory.Generic) :=
  (remote_success_mapping ⟨some "sk-live-key", some "Medium Business"⟩ "Acme" none
    "Medium Business" (by decide) rfl).1 SizeCategory.MediumBusiness 70 (by decide)

/-- C8: A successful remote classification answering "Startup" maps to
sub-score 40, while the heuristic gives a name containing "startup"
sub-score 50, so the two paths disagree on the same company even though
both complete normally. -/
theorem remote_startup_differs_from_heuristic :
    (estimate ⟨some "sk-live-key", some "Startup"⟩ "Tech Startup" none).score = 40 ∧
    (estimate ⟨some "sk-live-key", some "Startup"⟩ "Tech Startup" none).source =
      EstSource.Remote ∧
    (heuristicEstimate "Tech Startup").score = 50 ∧
    (estimate ⟨some "sk-live-key", some "Startup"⟩ "Tech Startup" none).score ≠
      (heuristicEstimate "Tech Startup").score := by decide

/-- C9: The remote path is attempted only when the credential is present
and different from the default placeholder: with the key absent or equal
to the placeholder the gate is closed and the heuristic result is produced
directly, independent of whatever the remote world would have answered. -/
theorem apiKey_placeholder_gating (r r' : Option String) (company : String)
    (website : Option String) :
    apiKeyValid none = false ∧
    apiKeyValid (some defaultPlaceholder) = false ∧
    estimate ⟨some defaultPlaceholder, r⟩ company website = heuristicEstimate company ∧
    estimate ⟨some defaultPlaceholder, r⟩ company website =
      estimate ⟨none, r'⟩ company website := by
  have hp : apiKeyValid (some defaultPlaceholder) = false := by decide
  refine ⟨rfl, hp, ?_, ?_⟩
  · simp [estimate, hp]
  · simp [estimate, hp, apiKeyValid]

/-- C10: The budget conversion runs only when the budget key is present
with a truthy value: absent, None, empty-string and zero budgets are left
exactly as supplied (float() is never invoked); when the conversion is
attempted and fails with ValueError/TypeError the budget is set to the
integer 0, and when it succeeds the parsed float is stored. -/
theorem convertBudget_truthy_gating (v : PyVal) :
    convertBudget none = none ∧
    truthy PyVal.pyNone = false ∧
    truthy (PyVal.pyStr "") = false ∧
    truthy (PyVal.pyInt 0) = false ∧
    truthy (PyVal.pyFloat 0) = false ∧
    (truthy v = false → convertBudget (some v) = some v) ∧
    (truthy v = true → floatFn v = none →
      convertBudget (some v) = some (PyVal.pyInt 0)) ∧
    (truthy v = true → ∀ q, floatFn v = some q →
      convertBudget (some v) = some (PyVal.pyFloat q)) := by
  refine ⟨rfl, rfl, by decide, by decide, by decide, ?_, ?_, ?_⟩
  · intro h
    simp [convertBudget, h]
  · intro h hf
    simp [convertBudget, h, hf]
  · intro h q hf
    simp [convertBudget, h, hf]

/-- Witness for C10 at the non-numeric string "invalid": the conversion is
attempted, float() fails, and the budget is set to the integer 0. -/
theorem convertBudget_truthy_gating_witness :
    truthy (PyVal.pyStr "invalid") = true ∧
    floatFn (PyVal.pyStr "invalid") = none ∧
    convertBudget (some (PyVal.pyStr "invalid")) = some (PyVal.pyInt 0) :=
  ⟨by decide, by decide,
    (convertBudget_truthy_gating (PyVal.pyStr "invalid")).2.2.2.2.2.2.1
      (by decide) (by decide)⟩

/-- C3 evaluation at the failing inputs: the budget coercion of app.py
leaves an empty-string or None budget exactly as supplied — it does not
resolve them to the float 0.0 the spec's Normalizer contract promises. -/
theorem normalizer_leaves_empty_budget_unchanged :
    convertBudget (some (PyVal.pyStr "")) = some (PyVal.pyStr "") ∧
    convertBudget (some (PyVal.pyStr "")) ≠ some (PyVal.pyFloat 0) ∧
    convertBudget (some PyVal.pyNone) = some PyVal.pyNone ∧
    convertBudget (some PyVal.pyNone) ≠ some (PyVal.pyFloat 0) := by decide

/-- C4: For every input profile, well-formed or malformed, the composite
score lies in [0,100]; the pipeline is a total function with no failure
path that yields no score. -/
theorem calculateScore_bounded (env : RemoteEnv) (p : CustomerProfile) :
    0 ≤ calculateScore env p ∧ calculateScore env p ≤ 100 := by
  unfold calculateScore clampScore
  exact ⟨le_max_left _ _, max_le (by norm_num) (min_le_left _ _)⟩

/-- C7: With the heuristic path fixed (the credential gate closed, so no
remote call is made), the score is a function of the profile alone: two
invocations on identical input — under arbitrary, even different, remote
worlds — return identical results. -/
theorem calculateScore_deterministic_heuristic (env1 env2 : RemoteEnv)
    (p : CustomerProfile)
    (h1 : apiKeyValid env1.apiKey = false) (h2 : apiKeyValid env2.apiKey = false) :
    calculateScore env1 p = calculateScore env2 p := by
  unfold calculateScore
  simp [estimate, h1, h2]

/-- Witness for C7: with no credential configured, the score of a concrete
profile is unchanged by what the remote service would have answered. -/
theorem calculateScore_deterministic_heuristic_witness :
    calculateScore ⟨none, none⟩
      ⟨some "Jane Doe", "Acme Inc", some "https://acme.example", some (PyVal.pyInt 50000),
        some "technology", some "interested", some 3⟩ =
    calculateScore ⟨none, some "Large Enterprise"⟩
      ⟨some "Jane Doe", "Acme Inc", some "https://acme.example", some (PyVal.pyInt 50000),
        some "technology", some "interested", some 3⟩ :=
  calculateScore_deterministic_heuristic ⟨none, none⟩ ⟨none, some "Large Enterprise"⟩
    ⟨some "Jane Doe", "Acme Inc", some "https://acme.example", some (PyVal.pyInt 50000),
      some "technology", some "interested", some 3⟩ rfl rfl
